import Mathlib

/-!
Shallow embedding of `sync_patchwork.py` from the bluez/action-ci
repository.  Python strings are modelled as lists of characters, and the
Python string primitives used by the script (`str.split`, `str.find`,
slicing, `re.search` on an anchored literal pattern) are given faithful
list-level translations.  Side-effecting calls to git, the Patchwork
tracker, GitHub and the mailer are recorded in an explicit effect trace;
the results returned by those external collaborators are supplied by an
environment record so that every control-flow branch of the script can be
exercised.
-/

set_option autoImplicit false
set_option maxRecDepth 16384

namespace SyncPatchwork

/-- Python `s.split('\n')`: always returns at least one piece and keeps
empty pieces, e.g. the empty string splits to one empty piece. -/
def pySplit : List Char → List (List Char)
  | [] => [[]]
  | c :: rest =>
    if c = '\n' then [] :: pySplit rest
    else
      match pySplit rest with
      | [] => [[c]]
      | l :: ls => (c :: l) :: ls

/-- Bool test that the first list is a leading segment of the second;
models `re.search` anchored with a leading caret on a literal pattern. -/
def pyStarts : List Char → List Char → Bool
  | [], _ => true
  | _ :: _, [] => false
  | a :: as, b :: bs => a == b && pyStarts as bs

/-- Bool test that the first list occurs as a contiguous run anywhere in
the second; models `s.find(sub) >= 0`. -/
def hasSub (needle : List Char) : List Char → Bool
  | [] => pyStarts needle []
  | c :: rest => pyStarts needle (c :: rest) || hasSub needle rest

/-- The tail of the list after the first occurrence of `c`, or `none`
when `c` does not occur. -/
def afterChar (c : Char) : List Char → Option (List Char)
  | [] => none
  | a :: as => if a == c then some as else afterChar c as

/-- Python `line[line.find('/')+1:]`: the suffix after the first slash,
or the whole line when it has no slash (`find` returns -1 and the slice
starts at 0). -/
def pyTrimSlash (l : List Char) : List Char :=
  (afterChar '/' l).getD l

/-- The removed-file marker test `re.search(r'^\-\-\- ', line)`. -/
def isMarker (l : List Char) : Bool :=
  pyStarts ("--- ".toList) l

/-- The substring the script uses to recognise the null-file sentinel:
`line.find('dev/null') >= 0`. -/
def devNull : List Char := "dev/null".toList

/-- Loop body of `patch_get_file_list` over the split lines. -/
def fileListLines : List (List Char) → List (List Char)
  | [] => []
  | line :: rest =>
    if isMarker line then
      if hasSub devNull line then fileListLines rest
      else pyTrimSlash line :: fileListLines rest
    else fileListLines rest

/-- Embedding of `patch_get_file_list`: `none` models a Python `None`
diff, which the script turns into an empty list after logging. -/
def patch_get_file_list : Option (List Char) → List (List Char)
  | none => []
  | some patch => fileListLines (pySplit patch)

/-- Loop body of `patch_get_new_file_list` over the split lines: on a
marker line containing `dev/null` the iterator consumes the following
line (the consumed line is not itself examined as a marker), and a
trailing marker with no following line is skipped because the script
catches `StopIteration`. -/
def newFileListLines : List (List Char) → List (List Char)
  | [] => []
  | line :: rest =>
    if isMarker line && hasSub devNull line then
      match rest with
      | [] => []
      | line2 :: rest2 => pyTrimSlash line2 :: newFileListLines rest2
    else newFileListLines rest

/-- Embedding of `patch_get_new_file_list`. -/
def patch_get_new_file_list : Option (List Char) → List (List Char)
  | none => []
  | some patch => newFileListLines (pySplit patch)

/-- Spec-side reading for the file-list claim: the removed-file marker
lines of a diff, i.e. lines starting with the four characters of the
marker. -/
def specRemovedMarkers (diff : List Char) : List (List Char) :=
  (pySplit diff).filter (fun l => isMarker l)

/-- Spec-side reading: the path carried by a marker line, i.e. the text
after the marker. -/
def specMarkerValue (l : List Char) : List Char :=
  l.drop 4

/-- Spec-side reading: the marker lines whose value is not the exact
null-file sentinel path. -/
def specNonNullMarkers (diff : List Char) : List (List Char) :=
  (specRemovedMarkers diff).filter (fun l => !(specMarkerValue l == "/dev/null".toList))

/-- Spec-side reading: strip the leading path-prefix segment of a path,
up to and including its first slash. -/
def specStripSegment (p : List Char) : List Char :=
  (afterChar '/' p).getD p

/-- A tracker patch record as returned by `pw.get_patch`; the fields of
the lightweight per-series patch descriptors (`id`, `name`, `msgid`) are
carried by the same record. -/
structure Patch where
  id : Nat
  name : List Char := []
  msgid : List Char := []
  diff : Option (List Char) := none
  content : List Char := []
  check : List Char := []
deriving Repr, DecidableEq

/-- A tracker series record; `name` is optional because the tracker can
return a null name, which `run_series` repairs from the first patch. -/
structure Series where
  id : Nat
  name : Option (List Char) := none
  patches : List Patch := []
  submitterEmail : List Char := []
deriving Repr, DecidableEq

/-- Embedding of `series_get_file_list`: concatenate the per-patch file
lists; when `ignore_new_file` is set and some patch created files, drop
every created file from the result. -/
def series_get_file_list (get_patch : Nat → Patch) (series : Series)
    (ignore_new_file : Bool) : List (List Char) :=
  if ignore_new_file = false ∨
      ((series.patches.map
          (fun p => patch_get_new_file_list (get_patch p.id).diff)).flatten).length = 0 then
    (series.patches.map (fun p => patch_get_file_list (get_patch p.id).diff)).flatten
  else
    ((series.patches.map (fun p => patch_get_file_list (get_patch p.id).diff)).flatten).filter
      (fun f =>
        !(((series.patches.map
            (fun p => patch_get_new_file_list (get_patch p.id).diff)).flatten).contains f))

/-- The union of `fileList` over the patches of a series minus the union
of `newFileList` over the same patches; the shape the design document
calls `fileListExcludingNew`. -/
def fileListExcludingNew (get_patch : Nat → Patch) (series : Series) : List (List Char) :=
  ((series.patches.map (fun p => patch_get_file_list (get_patch p.id).diff)).flatten).filter
    (fun f =>
      !(((series.patches.map
          (fun p => patch_get_new_file_list (get_patch p.id).diff)).flatten).contains f))

/-- Python `os.path.join(a, b)` restricted to the shapes the script
builds: an absolute second component wins, otherwise the components are
joined with a single slash. -/
def pyJoin (a b : List Char) : List Char :=
  if pyStarts ['/'] b then b
  else if a = [] ∨ a.getLast? = some '/' then a ++ b
  else a ++ '/' :: b

/-- Embedding of `filter_repo_space`.  A regex pattern together with the
case-insensitive unanchored `re.search` call is modelled as a Bool-valued
predicate on the series name; `path_exists` models `os.path.exists` on
the joined path. -/
def filter_repo_space (exclude incl : List (List Char → Bool))
    (get_patch : Nat → Patch) (path_exists : List Char → Bool)
    (series : Series) (src_dir : List Char) : Bool :=
  if exclude.any (fun p => p (series.name.getD [])) then false
  else if incl.any (fun p => p (series.name.getD [])) then true
  else
    if (series_get_file_list get_patch series true).length = 0 then false
    else
      (series_get_file_list get_patch series true).all
        (fun f => path_exists (pyJoin src_dir f))

/-- The email settings consumed by the script; `only_maintainers` is an
`Option` because the Python code tests both key presence and truth. -/
structure EmailConfig where
  only_maintainers : Option Bool := none
  maintainers : List (List Char) := []
  default_to : List Char := []

/-- Embedding of `is_maintainers_only`. -/
def is_maintainers_only (ec : EmailConfig) : Bool :=
  match ec.only_maintainers with
  | some b => b
  | none => false

/-- Embedding of `get_receivers`. -/
def get_receivers (ec : EmailConfig) (submitter : List Char) : List (List Char) :=
  if is_maintainers_only ec then ec.maintainers
  else [ec.default_to, submitter]

/-- The text of `EMAIL_MESSAGE` before the embedded diagnostic content. -/
def email_message_head : List Char :=
  ("This is an automated email and please do not reply to this email.\n\nDear Submitter,\n\nThank you for submitting the patches to the linux bluetooth mailing list.\nWhile preparing the CI tests, the patches you submitted couldn\x27t be applied to the current HEAD of the repository.\n\n----- Output -----\n").toList

/-- The text of `EMAIL_MESSAGE` after the embedded diagnostic content. -/
def email_message_tail : List Char :=
  ("\n\nPlease resolve the issue and submit the patches again.\n\n\n---\nRegards,\nLinux Bluetooth\n\n").toList

/-- Embedding of `EMAIL_MESSAGE.format(content=content)`. -/
def email_message (content : List Char) : List Char :=
  email_message_head ++ content ++ email_message_tail

/-- One observable external action of the script.  The trace records the
calls the script makes on git, the tracker, GitHub and the mailer, in
program order. -/
inductive Effect where
  | git_checkout (ref : List Char) (create : Bool)
  | write_mbox (pid : Nat)
  | git_am (pid : Nat)
  | git_am_abort
  | post_check (pid : Nat) (ctx : List Char) (verdict : Nat) (desc : List Char)
  | set_receivers (rs : List (List Char))
  | compose (subject body : List Char) (headers : List (List Char × List Char))
  | send_mail
  | git_push (ref : List Char)
  | create_pr (title body base head : List Char)
  | get_prs
  | close_pr (n : Nat)
deriving Repr, DecidableEq

/-- The configuration surface the script consumes. -/
structure Config where
  dry_run : Bool := false
  disable_pr : Bool := false
  branch : List Char := []
  email : EmailConfig := {}
  src_dir : List Char := []
  space_exclude : List (List Char → Bool) := []
  space_include : List (List Char → Bool) := []

/-- Results of the external collaborators.  A `..._fails` field is the
truthiness of the corresponding Python return value, so `true` means the
call failed (nonzero exit). -/
structure Env where
  get_patch : Nat → Patch := fun n => { id := n }
  checkout_fails : List Char → Bool → Bool := fun _ _ => false
  am_fails : Nat → Bool := fun _ => false
  am_stderr : Nat → List Char := fun _ => []
  push_fails : List Char → Bool := fun _ => false
  create_pr_ok : Bool := true
  pr_exist_title : List Char → Bool := fun _ => false
  path_exists : List Char → Bool := fun _ => true

/-- Decimal rendering of a series id, modelling the f-string
interpolation of `series['id']`. -/
def pyStrOfNat (n : Nat) : List Char :=
  (toString n).toList

/-- The tracker check context name used by the script. -/
def ctx_am : List Char := "pre-ci_am".toList

/-- Embedding of `send_email`: set the receivers, compose, and transmit
only when not in dry-run.  A series with no patches would raise an
`IndexError` in Python before any mailer call; that input is outside the
modelled domain and yields an empty trace. -/
def send_email (dry_run : Bool) (ec : EmailConfig) (series : Series)
    (content : List Char) : List Effect :=
  match series.patches with
  | [] => []
  | patch_1 :: _ =>
    [Effect.set_receivers (get_receivers ec series.submitterEmail),
     Effect.compose ("RE: ".toList ++ series.name.getD []) (email_message content)
       ([("In-Reply-To".toList, patch_1.msgid), ("References".toList, patch_1.msgid)] ++
        (if is_maintainers_only ec then [] else [("Reply-To".toList, ec.default_to)]))] ++
    (if dry_run then [] else [Effect.send_mail])

/-- The patch loop of `series_check_patches`: returns the verdict, the
captured diagnostic content, and the effect trace of the loop. -/
def process_patches (cfg : Config) (env : Env) (already : Bool) :
    List Patch → Bool × List Char × List Effect
  | [] => (true, [], [])
  | p :: rest =>
    if env.am_fails p.id then
      if cfg.dry_run || already then
        (false, env.am_stderr p.id,
         [Effect.write_mbox p.id, Effect.git_am p.id, Effect.git_am_abort])
      else
        (false, env.am_stderr p.id,
         [Effect.write_mbox p.id, Effect.git_am p.id, Effect.git_am_abort,
          Effect.post_check p.id ctx_am 3 (env.am_stderr p.id)])
    else
      ((process_patches cfg env already rest).1,
       (process_patches cfg env already rest).2.1,
       (if cfg.dry_run || already then
          [Effect.write_mbox p.id, Effect.git_am p.id]
        else
          [Effect.write_mbox p.id, Effect.git_am p.id,
           Effect.post_check p.id ctx_am 1 ("Success".toList)]) ++
       (process_patches cfg env already rest).2.2)

/-- Embedding of `series_check_patches`: returns the Python return value
and the effect trace.  An empty patch list would raise an `IndexError`
at `series['patches'][0]`; that input is outside the modelled domain. -/
def series_check_patches (cfg : Config) (env : Env) (series : Series) :
    Bool × List Effect :=
  if env.checkout_fails cfg.branch false then
    (false, [Effect.git_checkout cfg.branch false])
  else if env.checkout_fails (pyStrOfNat series.id) true then
    (false, [Effect.git_checkout cfg.branch false,
             Effect.git_checkout (pyStrOfNat series.id) true])
  else
    match series.patches.head? with
    | none =>
      (false, [Effect.git_checkout cfg.branch false,
               Effect.git_checkout (pyStrOfNat series.id) true])
    | some p0 =>
      let already := !((env.get_patch p0.id).check == "pending".toList)
      let r := process_patches cfg env already series.patches
      let es := [Effect.git_checkout cfg.branch false,
                 Effect.git_checkout (pyStrOfNat series.id) true] ++ r.2.2
      if r.1 = false then
        if cfg.dry_run || already then (false, es)
        else (false, es ++ send_email cfg.dry_run cfg.email series r.2.1)
      else if cfg.disable_pr then (true, es)
      else if env.push_fails (pyStrOfNat series.id) then
        (false, es ++ [Effect.git_push (pyStrOfNat series.id)])
      else if env.create_pr_ok then
        (true, es ++ [Effect.git_push (pyStrOfNat series.id),
                      Effect.create_pr
                        ("[PW_SID:".toList ++ pyStrOfNat series.id ++ "] ".toList ++
                          series.name.getD [])
                        (env.get_patch p0.id).content cfg.branch (pyStrOfNat series.id)])
      else
        (false, es ++ [Effect.git_push (pyStrOfNat series.id),
                       Effect.create_pr
                         ("[PW_SID:".toList ++ pyStrOfNat series.id ++ "] ".toList ++
                           series.name.getD [])
                         (env.get_patch p0.id).content cfg.branch (pyStrOfNat series.id)])

/-- The series-name repair at the top of the `run_series` loop: a null
name is replaced by the first patch name.  A null name together with an
empty patch list would raise an `IndexError` in Python; that input is
outside the modelled domain and is left unchanged. -/
def fix_name (series : Series) : Series :=
  match series.name with
  | some _ => series
  | none =>
    match series.patches with
    | [] => series
    | p :: _ => { series with name := some p.name }

/-- The body of the `run_series` loop for one series: filter by repo
space, skip when a PR with the tag substring already exists, otherwise
run `series_check_patches`; only the effect trace is kept. -/
def run_series_one (cfg : Config) (env : Env) (series0 : Series) : List Effect :=
  let series := fix_name series0
  if !(filter_repo_space cfg.space_exclude cfg.space_include env.get_patch
        env.path_exists series cfg.src_dir) then []
  else if env.pr_exist_title ("PW_SID:".toList ++ pyStrOfNat series.id) then []
  else (series_check_patches cfg env series).2

/-- Embedding of `run_series`. -/
def run_series (cfg : Config) (env : Env) (new_series : List Series) : List Effect :=
  (new_series.map (run_series_one cfg env)).flatten

/-- An open pull request as seen by the cleanup pass. -/
structure PullReq where
  number : Nat
  title : List Char
deriving Repr, DecidableEq

/-- Longest run of leading decimal digits of a list, paired with the
remainder. -/
def takeDigits : List Char → List Char × List Char
  | [] => ([], [])
  | c :: rest =>
    if c.isDigit then ((c :: (takeDigits rest).1), (takeDigits rest).2)
    else ([], c :: rest)

/-- Modelled from the spec: `pr_get_sid` lives in the external `libs`
module, which is not part of this repository source; section 4.4 of the
design document says it parses a PR title for a tag of the shape
left-bracket, the literal `PW_SID:`, an integer, right-bracket, tolerant
of arbitrary surrounding text, and yields nothing when no tag parses. -/
def pr_get_sid : List Char → Option (List Char)
  | [] => none
  | c :: rest =>
    if pyStarts ("[PW_SID:".toList) (c :: rest) then
      if !(takeDigits (rest.drop 7)).1.isEmpty &&
          ((takeDigits (rest.drop 7)).2.head? == some ']') then
        some (takeDigits (rest.drop 7)).1
      else pr_get_sid rest
    else pr_get_sid rest

/-- Python `int(s)` on the digit string produced by the tag parser. -/
def pyIntNat (s : List Char) : Nat :=
  s.foldl (fun acc c => acc * 10 + (c.toNat - 48)) 0

/-- Embedding of `sid_in_series_list`: the first series whose id equals
the parsed sid, if any. -/
def sid_in_series_list (sid : List Char) (series_list : List Series) : Option Series :=
  series_list.find? (fun s => pyIntNat sid == s.id)

/-- The per-PR loop of `cleanup_pullrequest`: a PR with no parsable tag
is skipped (the Python falsy test on the parser result), a PR whose sid
is found in the series list is kept, and any other PR is closed. -/
def cleanup_effects : List PullReq → List Series → List Effect
  | [], _ => []
  | pr :: rest, ls =>
    match pr_get_sid pr.title with
    | none => cleanup_effects rest ls
    | some sid =>
      if (sid_in_series_list sid ls).isSome then cleanup_effects rest ls
      else Effect.close_pr pr.number :: cleanup_effects rest ls

/-- Embedding of `cleanup_pullrequest`: the forced PR-list refresh
followed by the per-PR close decisions. -/
def cleanup_pullrequest (prs : List PullReq) (ls : List Series) : List Effect :=
  Effect.get_prs :: cleanup_effects prs ls

/-- Embedding of the tail of `main` after argument and config handling:
fetch the pending series (supplied here as `new_series`), exit early when
there are none, otherwise process every series and then run the cleanup
pass; `prs` is the open PR list the cleanup pass would fetch. -/
def main_trace (cfg : Config) (env : Env) (prs : List PullReq)
    (new_series : List Series) : List Effect :=
  if new_series.length = 0 then []
  else run_series cfg env new_series ++ cleanup_pullrequest prs new_series

/-! Helper lemmas about the diff analyzer. -/

/-- The marker loop is a filter of the marker lines without the sentinel
substring followed by the python slice after the first slash. -/
theorem fileListLines_eq (ls : List (List Char)) :
    fileListLines ls =
      (ls.filter (fun l => isMarker l && !(hasSub devNull l))).map pyTrimSlash := by
  induction ls with
  | nil => rfl
  | cons l rest ih =>
    cases hm : isMarker l with
    | false => simp [fileListLines, hm, ih]
    | true =>
      cases hs : hasSub devNull l with
      | false => simp [fileListLines, hm, hs, ih]
      | true => simp [fileListLines, hm, hs, ih]

/-- Claim C4: as stated the claim fails on the source.  The diff below
has one removed-file marker line, whose value `a/dev/null_helper.c` is
not the null-file sentinel `/dev/null`, yet `patch_get_file_list` emits
no entry for it, because the code tests the sentinel by the substring
`dev/null` rather than by the exact path. -/
theorem C4_counterexample :
    (specNonNullMarkers ("--- a/dev/null_helper.c\n+++ b/dev/null_helper.c".toList)).length
        = 1 ∧
    patch_get_file_list
        (some ("--- a/dev/null_helper.c\n+++ b/dev/null_helper.c".toList)) = [] := by
  constructor
  · rfl
  · rfl

/-- Claim C4, amended: for every diff text, `fileList` returns exactly
one entry, in order, for each removed-file marker line that does not
contain the substring `dev/null` anywhere in it, the entry being the
part of the marker line after its first slash (the whole line when it
has no slash); marker lines containing the substring `dev/null` are
omitted even when their path is not the exact sentinel `/dev/null`. -/
theorem C4_file_list (diff : List Char) :
    patch_get_file_list (some diff) =
      ((pySplit diff).filter (fun l => isMarker l && !(hasSub devNull l))).map
        pyTrimSlash :=
  fileListLines_eq (pySplit diff)

/-- Claim C9: the extraction functions never raise.  A null diff yields
an empty list from both functions, a removed-file marker that is the
last line of the input is skipped by `newFileList` (the caught
`StopIteration`) rather than raised, and a trailing marker line is
handled by `fileList` as usual. -/
theorem C9_no_raise :
    patch_get_file_list none = [] ∧
    patch_get_new_file_list none = [] ∧
    (∀ m : List Char, isMarker m = true → hasSub devNull m = true →
      newFileListLines [m] = []) ∧
    (∀ m : List Char, isMarker m = true → hasSub devNull m = false →
      fileListLines [m] = [pyTrimSlash m]) := by
  refine ⟨rfl, rfl, fun m hm hs => ?_, fun m hm hs => ?_⟩
  · simp [newFileListLines, hm, hs]
  · simp [fileListLines, hm, hs]

/-- Witness for C9 at a concrete trailing marker line. -/
theorem C9_witness :
    newFileListLines [("--- /dev/null".toList)] = [] ∧
    fileListLines [("--- a/foo.c".toList)] = ["foo.c".toList] := by
  constructor
  · exact C9_no_raise.2.2.1 ("--- /dev/null".toList) (by decide) (by decide)
  · exact (C9_no_raise.2.2.2 ("--- a/foo.c".toList) (by decide) (by decide)).trans
      (by decide)

/-- Claim C10: the null-file sentinel test is a substring match.  Every
marker line containing `dev/null` anywhere is omitted by `fileList`, and
`newFileList` treats it as a file creation: it consumes the immediately
following line and emits that line after its first slash. -/
theorem C10_substring_sentinel (l l2 : List Char) (rest : List (List Char))
    (hm : isMarker l = true) (hs : hasSub devNull l = true) :
    fileListLines (l :: rest) = fileListLines rest ∧
    newFileListLines (l :: l2 :: rest) = pyTrimSlash l2 :: newFileListLines rest := by
  constructor
  · simp [fileListLines, hm, hs]
  · simp [newFileListLines, hm, hs]

/-- Witness for C10 on a genuine path that merely contains `dev/null`. -/
theorem C10_witness :
    fileListLines
        [("--- a/dev/null_helper.c".toList), ("+++ b/dev/null_helper.c".toList)] =
      fileListLines [("+++ b/dev/null_helper.c".toList)] ∧
    newFileListLines
        [("--- a/dev/null_helper.c".toList), ("+++ b/dev/null_helper.c".toList)] =
      "dev/null_helper.c".toList :: newFileListLines [] := by
  constructor
  · exact (C10_substring_sentinel ("--- a/dev/null_helper.c".toList)
      ("+++ b/dev/null_helper.c".toList) [("+++ b/dev/null_helper.c".toList)]
      (by decide) (by decide)).1
  · exact ((C10_substring_sentinel ("--- a/dev/null_helper.c".toList)
      ("+++ b/dev/null_helper.c".toList) [] (by decide) (by decide)).2).trans
      (by decide)

/-! Repo-space filtering. -/

/-- With `ignore_new_file` set, `series_get_file_list` computes exactly
the union of the per-patch file lists minus the union of the per-patch
new-file lists; the early return for an empty new-file list is just the
degenerate case of the subtraction. -/
theorem series_get_file_list_true (gp : Nat → Patch) (s : Series) :
    series_get_file_list gp s true = fileListExcludingNew gp s := by
  unfold series_get_file_list fileListExcludingNew
  split
  case isTrue h =>
    have hnew :
        (s.patches.map (fun p => patch_get_new_file_list (gp p.id).diff)).flatten = [] := by
      rcases h with h | h
      · exact absurd h (by simp)
      · exact List.length_eq_zero.mp h
    rw [hnew]
    have hpred :
        (fun f : List Char => !(([] : List (List Char)).contains f)) = fun _ => true := rfl
    rw [hpred, List.filter_true]
  case isFalse h => rfl

/-- Claim C7: exclude patterns are evaluated before include patterns, a
series whose name matches an exclude pattern is rejected whatever else
holds, and a name matching an include pattern (with no exclude match) is
accepted for every file-existence oracle and every patch oracle, so no
file inspection can influence the outcome. -/
theorem C7_exclude_precedes_include (exc incl : List (List Char → Bool))
    (gp : Nat → Patch) (pe : List Char → Bool) (series : Series) (src : List Char) :
    ((exc.any fun p => p (series.name.getD [])) = true →
      filter_repo_space exc incl gp pe series src = false) ∧
    ((exc.any fun p => p (series.name.getD [])) = false →
      (incl.any fun p => p (series.name.getD [])) = true →
      filter_repo_space exc incl gp pe series src = true) := by
  constructor
  · intro h
    simp [filter_repo_space, h]
  · intro h1 h2
    simp [filter_repo_space, h1, h2]

/-- The exclude pattern of the design-document example, as the predicate
of the anchored pattern on `RFC`. -/
def excW : List (List Char → Bool) := [fun s => pyStarts ("RFC".toList) s]

/-- The include pattern of the design-document example. -/
def inclW : List (List Char → Bool) := [fun s => pyStarts ("BlueZ".toList) s]

/-- A series named by the design-document example for the exclude path. -/
def seriesW7 : Series :=
  { id := 5, name := some ("RFC: BlueZ feature".toList), patches := [{ id := 1 }] }

/-- A series whose name matches only the include pattern. -/
def seriesW7incl : Series :=
  { id := 6, name := some ("BlueZ feature".toList), patches := [{ id := 1 }] }

/-- Witness for C7: the example series is rejected although its name
also matches the include pattern, and an include-only match is accepted
even though the existence oracle rejects every path. -/
theorem C7_witness :
    filter_repo_space excW inclW (fun n => { id := n }) (fun _ => false) seriesW7 [] =
        false ∧
    filter_repo_space excW inclW (fun n => { id := n }) (fun _ => false) seriesW7incl [] =
        true := by
  constructor
  · exact (C7_exclude_precedes_include excW inclW (fun n => { id := n })
      (fun _ => false) seriesW7 []).1 (by decide)
  · exact (C7_exclude_precedes_include excW inclW (fun n => { id := n })
      (fun _ => false) seriesW7incl []).2 (by decide) (by decide)

/-- Claim C8: when neither pattern list matches, membership is decided
by the file evidence: the series is rejected when the file list minus
the new files is empty, and otherwise accepted exactly when every listed
path exists under the source tree root. -/
theorem C8_file_evidence (exc incl : List (List Char → Bool)) (gp : Nat → Patch)
    (pe : List Char → Bool) (series : Series) (src : List Char)
    (h1 : (exc.any fun p => p (series.name.getD [])) = false)
    (h2 : (incl.any fun p => p (series.name.getD [])) = false) :
    filter_repo_space exc incl gp pe series src =
      (if fileListExcludingNew gp series = [] then false
       else (fileListExcludingNew gp series).all fun f => pe (pyJoin src f)) := by
  simp [filter_repo_space, h1, h2, series_get_file_list_true, List.length_eq_zero]

/-- Patch oracle whose single diff touches `Makefile`. -/
def gpW8 : Nat → Patch :=
  fun n => { id := n, diff := some ("--- a/Makefile\n+++ b/Makefile".toList) }

/-- A series with one patch and a name matching no pattern. -/
def seriesW8 : Series :=
  { id := 3, name := some ("n".toList), patches := [{ id := 1 }] }

/-- Witness for C8: with no pattern match and all paths present, the
series is accepted. -/
theorem C8_witness :
    filter_repo_space [] [] gpW8 (fun _ => true) seriesW8 ("src".toList) = true :=
  (C8_file_evidence [] [] gpW8 (fun _ => true) seriesW8 ("src".toList)
    (by decide) (by decide)).trans (by decide)

/-! The per-series patch-application state machine. -/

/-- Effects the notification sender can produce: setting the receivers,
composing, transmitting. -/
def isEmailEffect : Effect → Bool
  | Effect.set_receivers _ => true
  | Effect.compose _ _ _ => true
  | Effect.send_mail => true
  | _ => false

/-- When every patch applies, the loop reports one success per patch
(suppressed in dry-run or already-checked mode) and returns a true
verdict with empty diagnostic content. -/
theorem process_patches_ok (cfg : Config) (env : Env) (already : Bool)
    (ps : List Patch) (h : ∀ p ∈ ps, env.am_fails p.id = false) :
    process_patches cfg env already ps =
      (true, [],
       ps.flatMap fun p =>
         if cfg.dry_run || already then [Effect.write_mbox p.id, Effect.git_am p.id]
         else
           [Effect.write_mbox p.id, Effect.git_am p.id,
            Effect.post_check p.id ctx_am 1 ("Success".toList)]) := by
  induction ps with
  | nil => rfl
  | cons p rest ih =>
    have hp := h p (List.mem_cons_self p rest)
    have hrest : ∀ q ∈ rest, env.am_fails q.id = false :=
      fun q hq => h q (List.mem_cons_of_mem p hq)
    simp [process_patches, hp, ih hrest, List.flatMap_cons]

/-- Outside dry-run and already-checked mode, the loop on a first
failure reports one success per earlier patch, aborts, reports the
failure, and stops: later patches leave no trace at all. -/
theorem process_patches_fail (cfg : Config) (env : Env)
    (pre : List Patch) (pf : Patch) (post : List Patch)
    (hdr : cfg.dry_run = false)
    (hpre : ∀ p ∈ pre, env.am_fails p.id = false)
    (hpf : env.am_fails pf.id = true) :
    process_patches cfg env false (pre ++ pf :: post) =
      (false, env.am_stderr pf.id,
       (pre.flatMap fun p =>
          [Effect.write_mbox p.id, Effect.git_am p.id,
           Effect.post_check p.id ctx_am 1 ("Success".toList)]) ++
       [Effect.write_mbox pf.id, Effect.git_am pf.id, Effect.git_am_abort,
        Effect.post_check pf.id ctx_am 3 (env.am_stderr pf.id)]) := by
  induction pre with
  | nil => simp [process_patches, hpf, hdr]
  | cons p rest ih =>
    have hp := hpre p (List.mem_cons_self p rest)
    have hrest : ∀ q ∈ rest, env.am_fails q.id = false :=
      fun q hq => hpre q (List.mem_cons_of_mem p hq)
    simp [process_patches, hp, hdr, ih hrest, List.flatMap_cons]

/-- In dry-run mode (for any already-checked state) a first failure
leaves only the apply attempts and the abort in the trace: no tracker
report at all. -/
theorem process_patches_fail_dry (cfg : Config) (env : Env) (already : Bool)
    (pre : List Patch) (pf : Patch) (post : List Patch)
    (hdr : cfg.dry_run = true)
    (hpre : ∀ p ∈ pre, env.am_fails p.id = false)
    (hpf : env.am_fails pf.id = true) :
    process_patches cfg env already (pre ++ pf :: post) =
      (false, env.am_stderr pf.id,
       (pre.flatMap fun p => [Effect.write_mbox p.id, Effect.git_am p.id]) ++
       [Effect.write_mbox pf.id, Effect.git_am pf.id, Effect.git_am_abort]) := by
  induction pre with
  | nil => simp [process_patches, hpf, hdr]
  | cons p rest ih =>
    have hp := hpre p (List.mem_cons_self p rest)
    have hrest : ∀ q ∈ rest, env.am_fails q.id = false :=
      fun q hq => hpre q (List.mem_cons_of_mem p hq)
    simp [process_patches, hp, hdr, ih hrest, List.flatMap_cons]

/-- Claim C5: outside dry-run and already-checked mode, when patch `pf`
is the first failing patch of the series, the whole trace consists of
the two checkouts, one success report (verdict 1, context `pre-ci_am`)
per earlier patch, the attempt on `pf` followed by the abort and then
its failure report (verdict 3), and the failure notification; the
patches after `pf` are never attempted. -/
theorem C5_fail_fast (cfg : Config) (env : Env) (series : Series)
    (pre : List Patch) (pf : Patch) (post : List Patch) (p0 : Patch)
    (hc1 : env.checkout_fails cfg.branch false = false)
    (hc2 : env.checkout_fails (pyStrOfNat series.id) true = false)
    (hp : series.patches = pre ++ pf :: post)
    (hp0 : series.patches.head? = some p0)
    (hpend : (env.get_patch p0.id).check = "pending".toList)
    (hdr : cfg.dry_run = false)
    (hpre : ∀ p ∈ pre, env.am_fails p.id = false)
    (hpf : env.am_fails pf.id = true) :
    series_check_patches cfg env series =
      (false,
       [Effect.git_checkout cfg.branch false,
        Effect.git_checkout (pyStrOfNat series.id) true] ++
       ((pre.flatMap fun p =>
           [Effect.write_mbox p.id, Effect.git_am p.id,
            Effect.post_check p.id ctx_am 1 ("Success".toList)]) ++
        [Effect.write_mbox pf.id, Effect.git_am pf.id, Effect.git_am_abort,
         Effect.post_check pf.id ctx_am 3 (env.am_stderr pf.id)]) ++
       send_email false cfg.email series (env.am_stderr pf.id)) := by
  have hproc := process_patches_fail cfg env pre pf post hdr hpre hpf
  simp only [series_check_patches, hp0]
  rw [hp]
  simp [hc1, hc2, hpend, hdr, hproc, List.append_assoc]

/-- Config of the witness series run for the fail-fast claim:
maintainers-only email, no dry-run. -/
def cfgW5 : Config :=
  { branch := "master".toList,
    email := { only_maintainers := some true, maintainers := ["m@x".toList] } }

/-- Environment of the witness series run: every check pending, patch 2
fails to apply with diagnostic `boom`. -/
def envW5 : Env :=
  { get_patch := fun n => { id := n, check := "pending".toList },
    am_fails := fun n => n == 2,
    am_stderr := fun _ => "boom".toList }

/-- Witness series with three patches. -/
def sW5 : Series :=
  { id := 9, name := some ("x".toList),
    patches := [{ id := 1 }, { id := 2 }, { id := 3 }],
    submitterEmail := "sub@x".toList }

/-- Witness for C5 on a three-patch series whose second patch fails:
exactly one success report, one failure report after the abort, and the
notification; patch 3 leaves no trace. -/
theorem C5_witness :
    series_check_patches cfgW5 envW5 sW5 =
      (false,
       [Effect.git_checkout ("master".toList) false,
        Effect.git_checkout ("9".toList) true,
        Effect.write_mbox 1, Effect.git_am 1,
        Effect.post_check 1 ctx_am 1 ("Success".toList),
        Effect.write_mbox 2, Effect.git_am 2, Effect.git_am_abort,
        Effect.post_check 2 ctx_am 3 ("boom".toList),
        Effect.set_receivers ["m@x".toList],
        Effect.compose ("RE: x".toList) (email_message ("boom".toList))
          [("In-Reply-To".toList, []), ("References".toList, [])],
        Effect.send_mail]) :=
  (C5_fail_fast cfgW5 envW5 sW5 [{ id := 1 }] { id := 2 } [{ id := 3 }] { id := 1 }
    (by decide) (by decide) (by decide) (by decide) (by decide) (by decide)
    (by decide) (by decide)).trans (by decide)

/-- Config of the dry-run counterexamples. -/
def cfgC1 : Config := { dry_run := true, branch := "master".toList }

/-- Environment of the dry-run counterexamples: everything succeeds. -/
def envC1 : Env :=
  { get_patch := fun n => { id := n, check := "pending".toList, content := "body".toList } }

/-- One-patch series of the dry-run counterexamples. -/
def sC1 : Series := { id := 7, name := some ("x".toList), patches := [{ id := 1 }] }

/-- Claim C1: as stated the claim fails on the source.  With the dry-run
flag set and PR creation enabled, a series whose single patch applies
still gets its branch pushed and a pull request created: the PR-creation
tail of `series_check_patches` never consults the dry-run flag. -/
theorem C1_counterexample :
    cfgC1.dry_run = true ∧ cfgC1.disable_pr = false ∧
    Effect.git_push ("7".toList) ∈ (series_check_patches cfgC1 envC1 sC1).2 ∧
    Effect.create_pr ("[PW_SID:7] x".toList) ("body".toList) ("master".toList)
        ("7".toList) ∈ (series_check_patches cfgC1 envC1 sC1).2 := by
  decide

/-- Claim C1, amended: the dry-run flag does not suppress the branch
push or the PR creation.  For every configuration, dry-run or not, when
the checkouts succeed, all patches apply, PR creation is enabled and the
push succeeds, the trace contains the branch push and the PR-creation
request; only the disable-PR flag suppresses them. -/
theorem C1_push_and_pr (cfg : Config) (env : Env) (series : Series) (p0 : Patch)
    (hc1 : env.checkout_fails cfg.branch false = false)
    (hc2 : env.checkout_fails (pyStrOfNat series.id) true = false)
    (hp0 : series.patches.head? = some p0)
    (hok : ∀ p ∈ series.patches, env.am_fails p.id = false)
    (hdp : cfg.disable_pr = false)
    (hpush : env.push_fails (pyStrOfNat series.id) = false) :
    Effect.git_push (pyStrOfNat series.id) ∈ (series_check_patches cfg env series).2 ∧
    Effect.create_pr
        ("[PW_SID:".toList ++ pyStrOfNat series.id ++ "] ".toList ++ series.name.getD [])
        (env.get_patch p0.id).content cfg.branch (pyStrOfNat series.id) ∈
      (series_check_patches cfg env series).2 := by
  have hproc := process_patches_ok cfg env
    (!((env.get_patch p0.id).check == "pending".toList)) series.patches hok
  cases hcp : env.create_pr_ok
  all_goals
    simp only [series_check_patches, hp0]
    rw [hproc]
    simp [hc1, hc2, hdp, hpush, hcp]

/-- Witness for C1 amended, at the counterexample input itself. -/
theorem C1_witness :
    Effect.git_push (pyStrOfNat 7) ∈ (series_check_patches cfgC1 envC1 sC1).2 ∧
    Effect.create_pr
        ("[PW_SID:".toList ++ pyStrOfNat 7 ++ "] ".toList ++ sC1.name.getD [])
        (envC1.get_patch 1).content cfgC1.branch (pyStrOfNat 7) ∈
      (series_check_patches cfgC1 envC1 sC1).2 :=
  C1_push_and_pr cfgC1 envC1 sC1 { id := 1 } (by decide) (by decide) (by decide)
    (by decide) (by decide) (by decide)

/-- Environment of the dry-run failure counterexample: the single patch
fails to apply. -/
def envC2 : Env :=
  { get_patch := fun n => { id := n, check := "pending".toList },
    am_fails := fun _ => true,
    am_stderr := fun _ => "boom".toList }

/-- Claim C2: as stated the claim fails on the source.  With the dry-run
flag set and a failing patch, the notification is not composed at all:
`series_check_patches` returns before calling `send_email`, so no
receivers are set, nothing is composed and nothing is sent. -/
theorem C2_counterexample :
    cfgC1.dry_run = true ∧ envC2.am_fails 1 = true ∧
    (series_check_patches cfgC1 envC2 sC1).2.filter isEmailEffect = [] := by
  decide

/-- The apply attempts of a dry-run loop contain no mailer effect. -/
theorem filter_email_wm_ga (ps : List Patch) :
    ((ps.flatMap fun p => [Effect.write_mbox p.id, Effect.git_am p.id]).filter
      isEmailEffect) = [] := by
  induction ps with
  | nil => rfl
  | cons p rest ih => simp [List.flatMap_cons, List.filter_append, ih, isEmailEffect]

/-- Claim C2, amended: in dry-run mode the failure notification is
neither composed nor transmitted, because the series flow skips
`send_email` entirely; had `send_email` been called in dry-run mode, it
would set the receivers and compose the message and skip only the
transmission. -/
theorem C2_dry_run_email (cfg : Config) (env : Env) (series : Series)
    (pre : List Patch) (pf : Patch) (post : List Patch) (p0 : Patch)
    (hc1 : env.checkout_fails cfg.branch false = false)
    (hc2 : env.checkout_fails (pyStrOfNat series.id) true = false)
    (hp : series.patches = pre ++ pf :: post)
    (hp0 : series.patches.head? = some p0)
    (hdr : cfg.dry_run = true)
    (hpre : ∀ p ∈ pre, env.am_fails p.id = false)
    (hpf : env.am_fails pf.id = true) :
    ((series_check_patches cfg env series).2.filter isEmailEffect = []) ∧
    (∀ (ec : EmailConfig) (s2 : Series) (content : List Char) (p1 : Patch)
        (r1 : List Patch), s2.patches = p1 :: r1 →
      send_email true ec s2 content =
        [Effect.set_receivers (get_receivers ec s2.submitterEmail),
         Effect.compose ("RE: ".toList ++ s2.name.getD []) (email_message content)
           ([("In-Reply-To".toList, p1.msgid), ("References".toList, p1.msgid)] ++
            (if is_maintainers_only ec then []
             else [("Reply-To".toList, ec.default_to)]))]) := by
  constructor
  · have hproc := process_patches_fail_dry cfg env
      (!((env.get_patch p0.id).check == "pending".toList)) pre pf post hdr hpre hpf
    simp only [series_check_patches, hp0]
    rw [hp, hproc]
    simp [hc1, hc2, hdr, List.filter_append, filter_email_wm_ga, isEmailEffect]
  · intro ec s2 content p1 r1 h
    simp [send_email, h]

/-- Witness for C2 amended: at the counterexample input the trace has no
mailer effect, and a direct dry-run `send_email` call on the same series
sets receivers and composes without transmitting. -/
theorem C2_witness :
    ((series_check_patches cfgC1 envC2 sC1).2.filter isEmailEffect = []) ∧
    send_email true cfgC1.email sC1 ("boom".toList) =
      [Effect.set_receivers (get_receivers cfgC1.email sC1.submitterEmail),
       Effect.compose ("RE: ".toList ++ sC1.name.getD []) (email_message ("boom".toList))
         ([("In-Reply-To".toList, Patch.msgid { id := 1 }),
           ("References".toList, Patch.msgid { id := 1 })] ++
          (if is_maintainers_only cfgC1.email then []
           else [("Reply-To".toList, cfgC1.email.default_to)]))] := by
  have h := C2_dry_run_email cfgC1 envC2 sC1 [] { id := 1 } [] { id := 1 }
    (by decide) (by decide) (by decide) (by decide) (by decide) (by decide) (by decide)
  exact ⟨h.1, h.2 cfgC1.email sC1 ("boom".toList) { id := 1 } [] (by decide)⟩

/-! Main control flow and the stale-PR cleanup pass. -/

/-- The effect marking the start of the cleanup pass: the forced refresh
of the open PR list. -/
def isGetPrs : Effect → Bool
  | Effect.get_prs => true
  | _ => false

/-- The patch loop never fetches the PR list. -/
theorem process_no_getprs (cfg : Config) (env : Env) (already : Bool) (ps : List Patch) :
    ((process_patches cfg env already ps).2.2).filter isGetPrs = [] := by
  induction ps with
  | nil => rfl
  | cons p rest ih =>
    cases h1 : env.am_fails p.id <;> cases h2 : (cfg.dry_run || already) <;>
      simp [process_patches, h1, h2, isGetPrs, List.filter_append, ih]

/-- The notification sender never fetches the PR list. -/
theorem send_email_no_getprs (dr : Bool) (ec : EmailConfig) (s : Series)
    (content : List Char) :
    (send_email dr ec s content).filter isGetPrs = [] := by
  cases h : s.patches <;> cases dr <;> simp [send_email, h, isGetPrs]

/-- A series run never fetches the PR list. -/
theorem series_check_no_getprs (cfg : Config) (env : Env) (s : Series) :
    ((series_check_patches cfg env s).2).filter isGetPrs = [] := by
  simp only [series_check_patches]
  repeat' split
  all_goals
    simp [isGetPrs, List.filter_append, process_no_getprs, send_email_no_getprs]

/-- One iteration of the series loop never fetches the PR list. -/
theorem run_series_one_no_getprs (cfg : Config) (env : Env) (s : Series) :
    (run_series_one cfg env s).filter isGetPrs = [] := by
  simp only [run_series_one]
  split
  · rfl
  · split
    · rfl
    · exact series_check_no_getprs cfg env (fix_name s)

/-- The whole series pass never fetches the PR list. -/
theorem run_series_no_getprs (cfg : Config) (env : Env) (ns : List Series) :
    (run_series cfg env ns).filter isGetPrs = [] := by
  induction ns with
  | nil => rfl
  | cons s rest ih =>
    simp only [run_series, List.map_cons, List.flatten_cons, List.filter_append]
    rw [run_series_one_no_getprs cfg env s]
    simpa [run_series] using ih

/-- The per-PR cleanup loop emits only close effects. -/
theorem cleanup_effects_no_getprs (prs : List PullReq) (ls : List Series) :
    (cleanup_effects prs ls).filter isGetPrs = [] := by
  induction prs with
  | nil => rfl
  | cons pr rest ih =>
    cases h : pr_get_sid pr.title with
    | none => simp [cleanup_effects, h, ih]
    | some sid =>
      cases h2 : sid_in_series_list sid ls with
      | none => simp [cleanup_effects, h, h2, ih, isGetPrs]
      | some s => simp [cleanup_effects, h, h2, ih]

/-- Claim C3: as stated the claim fails on the source.  With an empty
pending-series list the run exits before the cleanup pass: the trace is
empty and in particular contains no PR-list refresh, where the claim
demands exactly one cleanup pass on every run. -/
theorem C3_counterexample :
    main_trace cfgC1 envC1 [{ number := 1, title := ("[PW_SID:5] x".toList) }] [] = [] ∧
    ((main_trace cfgC1 envC1 [{ number := 1, title := ("[PW_SID:5] x".toList) }]
        []).filter isGetPrs).length = 0 := by
  decide

/-- Claim C3, amended: when the pending-series list is nonempty the run
performs the cleanup pass exactly once, after the full series pass; when
the list is empty the run exits early and the cleanup pass does not run
at all. -/
theorem C3_cleanup_once (cfg : Config) (env : Env) (prs : List PullReq)
    (ns : List Series) (h : ns ≠ []) :
    main_trace cfg env prs ns = run_series cfg env ns ++ cleanup_pullrequest prs ns ∧
    ((main_trace cfg env prs ns).filter isGetPrs).length = 1 := by
  have hlen : ¬(ns.length = 0) := by
    simpa [List.length_eq_zero] using h
  constructor
  · simp [main_trace, hlen]
  · simp [main_trace, hlen, List.filter_append, run_series_no_getprs,
      cleanup_pullrequest, cleanup_effects_no_getprs, isGetPrs]

/-- Witness for C3 amended on a one-series run. -/
theorem C3_witness :
    ((main_trace cfgC1 envC1 [{ number := 1, title := ("[PW_SID:5] x".toList) }]
        [sC1]).filter isGetPrs).length = 1 :=
  (C3_cleanup_once cfgC1 envC1 [{ number := 1, title := ("[PW_SID:5] x".toList) }]
    [sC1] (by decide)).2

/-- Claim C6: the cleanup pass closes exactly the open PRs whose title
parses to a series id absent from the pending list, in PR-list order; a
PR whose id is present stays open and a PR with no parsable tag is left
untouched. -/
theorem C6_reconcile (prs : List PullReq) (ls : List Series) :
    cleanup_pullrequest prs ls =
      Effect.get_prs ::
        (prs.filter fun pr =>
            match pr_get_sid pr.title with
            | none => false
            | some sid => (sid_in_series_list sid ls).isNone).map
          (fun pr => Effect.close_pr pr.number) := by
  unfold cleanup_pullrequest
  congr 1
  induction prs with
  | nil => rfl
  | cons pr rest ih =>
    cases h : pr_get_sid pr.title with
    | none => simp [cleanup_effects, h, ih]
    | some sid =>
      cases h2 : sid_in_series_list sid ls with
      | none => simp [cleanup_effects, h, h2, ih]
      | some s => simp [cleanup_effects, h, h2, ih]

/-- The design-document reconcile example, exercising the spec-modelled
title parser: of three open PRs tagged 10, tagged 99 and untagged, with
only series 10 pending, exactly PR 99 is closed. -/
theorem cleanup_example :
    cleanup_pullrequest
      [{ number := 1, title := ("[PW_SID:10] foo".toList) },
       { number := 2, title := ("[PW_SID:99] bar".toList) },
       { number := 3, title := ("Unrelated PR".toList) }]
      [{ id := 10 }] = [Effect.get_prs, Effect.close_pr 2] := by
  decide

end SyncPatchwork
